import Mathlib

/-!
Shallow embedding of `src/arrays/array.c` (repository `yonieas/dsa`): a
fixed-size, type-erased array container with status-code error signalling.

Modelling conventions:
* `size_t` values are `Nat`; `SIZE_MAX` is the 64-bit value `2 ^ 64 - 1`.
* The backing storage (`self->head`) is `Option (List Nat)`: `none` models a
  NULL pointer, `some bytes` models an allocated region whose bytes are the
  list entries.  A caller-supplied input buffer is a `List Nat` of bytes; an
  output pointer that may be NULL is a `Bool` flag (`true` = present).
* The nullable `Array *self` argument of every operation is
  `Option DSA.Array`.
* Operations that can hit C undefined behaviour (division by zero in
  `array_init`, `memcpy` through a NULL or too-short buffer) return
  `Option`: `none` means the C program has no defined result there.
  `array_get` takes `const Array *self` and never writes through it, so it
  is embedded as a function that returns only the status and the bytes
  written to the output buffer (`none` when the buffer is untouched).
-/

namespace DSA

/-- SIZE_MAX on the modelled platform: size_t is 64 bits wide. -/
def SIZE_MAX : Nat := 2 ^ 64 - 1

/-- Status values returned by all array operations (`status_t` in array.h). -/
inductive status_t where
  | S_OK
  | S_ERR_SELF_IS_NULL
  | S_ERR_RETURN_PARAMS_IS_NULL
  | S_ERR_OUT_OF_MEMORY
  | S_ERR_OUT_OF_RANGE
  | S_ERR_ELEMENT_SIZE_MISMATCH
deriving DecidableEq

/-- The `Array` struct of array.h: storage pointer, element count, element
byte size. -/
structure Array where
  head : Option (List Nat)
  length : Nat
  elem_size : Nat
deriving DecidableEq

/-- The effect of `memcpy(dst + off, src, src.length)` on a byte buffer:
overwrite `src.length` bytes of `dst` starting at offset `off`. -/
def writeBytes (dst : List Nat) (off : Nat) (src : List Nat) : List Nat :=
  dst.take off ++ src ++ dst.drop (off + src.length)

/-- The bytes `memcpy` reads from `src + off` when copying `n` bytes. -/
def readBytes (src : List Nat) (off n : Nat) : List Nat :=
  (src.drop off).take n

/-- Embedding of `array_init`.  `allocOk` models whether `calloc` succeeds.
The C code divides `SIZE_MAX / elem_size` before any check of `elem_size`,
so a call with `elem_size = 0` is undefined behaviour (`none`).  On
allocation failure the code has already stored NULL into `self->head`. -/
def array_init (self : Option Array) (length elem_size : Nat)
    (allocOk : Bool) : Option (status_t × Option Array) :=
  match self with
  | none => some (.S_ERR_SELF_IS_NULL, none)
  | some st =>
    if elem_size = 0 then
      none
    else if length = 0 ∨ length > SIZE_MAX / elem_size then
      some (.S_ERR_OUT_OF_RANGE, some st)
    else if allocOk then
      some (.S_OK,
        some ⟨some (List.replicate (length * elem_size) 0), length, elem_size⟩)
    else
      some (.S_ERR_OUT_OF_MEMORY, some { st with head := none })

/-- Embedding of `array_free`: frees the storage (a no-op on NULL), nulls
the head and zeroes length and elem_size. -/
def array_free (self : Option Array) : status_t × Option Array :=
  match self with
  | none => (.S_ERR_SELF_IS_NULL, none)
  | some _ => (.S_OK, some ⟨none, 0, 0⟩)

/-- Embedding of `array_set`.  Checks run in source order: NULL self, index
range, element size; then `memcpy` writes `value_size` bytes of `value_in`
at offset `index * elem_size`.  The copy through a NULL head, past the end
of the storage, or out of a too-short input buffer is undefined behaviour. -/
def array_set (self : Option Array) (index : Nat) (value_in : List Nat)
    (value_size : Nat) : Option (status_t × Option Array) :=
  match self with
  | none => some (.S_ERR_SELF_IS_NULL, none)
  | some st =>
    if index ≥ st.length then
      some (.S_ERR_OUT_OF_RANGE, some st)
    else if st.elem_size ≠ value_size then
      some (.S_ERR_ELEMENT_SIZE_MISMATCH, some st)
    else
      match st.head with
      | none => none
      | some bytes =>
        if value_in.length < value_size ∨
            bytes.length < index * st.elem_size + value_size then
          none
        else
          some (.S_OK, some { st with
            head := some (writeBytes bytes (index * st.elem_size)
              (value_in.take value_size)) })

/-- Embedding of `array_get`.  Checks run in source order: NULL self, NULL
output pointer, index range, element size; then `memcpy` copies the element
bytes into the output buffer.  `self` is `const` in the source and is never
written, so the result is only the status and the bytes delivered to the
output buffer (`none` when it was not written). -/
def array_get (self : Option Array) (index : Nat) (value_out_present : Bool)
    (value_size : Nat) : Option (status_t × Option (List Nat)) :=
  match self with
  | none => some (.S_ERR_SELF_IS_NULL, none)
  | some st =>
    if value_out_present = false then
      some (.S_ERR_RETURN_PARAMS_IS_NULL, none)
    else if index ≥ st.length then
      some (.S_ERR_OUT_OF_RANGE, none)
    else if st.elem_size ≠ value_size then
      some (.S_ERR_ELEMENT_SIZE_MISMATCH, none)
    else
      match st.head with
      | none => none
      | some bytes =>
        if bytes.length < index * st.elem_size + value_size then
          none
        else
          some (.S_OK, some (readBytes bytes (index * st.elem_size) value_size))

/-- Embedding of `array_len`: NULL checks, then writes `self->length` to
the output.  `self` is `const` and never written. -/
def array_len (self : Option Array) (length_out_present : Bool) :
    status_t × Option Nat :=
  match self with
  | none => (.S_ERR_SELF_IS_NULL, none)
  | some st =>
    if length_out_present = false then
      (.S_ERR_RETURN_PARAMS_IS_NULL, none)
    else
      (.S_OK, some st.length)

/-- Writing inside the bounds of a buffer preserves its length. -/
lemma writeBytes_length (dst src : List Nat) (off : Nat)
    (h : off + src.length ≤ dst.length) :
    (writeBytes dst off src).length = dst.length := by
  simp [writeBytes]
  omega

/-- Reading back the region just written returns exactly the written bytes
when the write fits inside the buffer. -/
lemma readBytes_writeBytes (dst src : List Nat) (off : Nat)
    (h : off ≤ dst.length) :
    readBytes (writeBytes dst off src) off src.length = src := by
  have hlen : (dst.take off).length = off := by
    simp
    omega
  unfold readBytes writeBytes
  rw [List.append_assoc]
  have h1 := List.drop_left (dst.take off) (src ++ dst.drop (off + src.length))
  rw [hlen] at h1
  rw [h1]
  exact List.take_left src (dst.drop (off + src.length))

/-- Reading an element-sized slice of a zero-filled buffer of `L` elements
of `S` bytes gives `S` zero bytes. -/
lemma readBytes_replicate_zero (L S i : Nat) (hi : i < L) :
    readBytes (List.replicate (L * S) 0) (i * S) S = List.replicate S 0 := by
  have hmul : (i + 1) * S ≤ L * S := Nat.mul_le_mul_right S hi
  rw [Nat.succ_mul] at hmul
  simp [readBytes, List.drop_replicate, List.take_replicate]
  omega

/-- Inversion for a successful `array_init`: the resulting instance is the
freshly zero-filled one and the arguments satisfied the checks. -/
lemma array_init_ok_inv (st0 : Option Array) (L S : Nat) (allocOk : Bool)
    (st1 : Option Array)
    (h : array_init st0 L S allocOk = some (.S_OK, st1)) :
    ∃ st, st0 = some st ∧ 0 < S ∧ 0 < L ∧ L ≤ SIZE_MAX / S ∧ allocOk = true ∧
      st1 = some ⟨some (List.replicate (L * S) 0), L, S⟩ := by
  match st0 with
  | none => simp [array_init] at h
  | some st =>
    refine ⟨st, rfl, ?_⟩
    simp only [array_init] at h
    split at h
    next => exact absurd h (by simp)
    next hS0 =>
      split at h
      next => simp at h
      next hor =>
        push_neg at hor
        split at h
        next halloc =>
          simp only [Option.some.injEq, Prod.mk.injEq] at h
          exact ⟨Nat.pos_of_ne_zero hS0, Nat.pos_of_ne_zero hor.1, hor.2,
            halloc, h.2.symm⟩
        next => simp at h

/-- Claim C1: for every successfully initialized array with length `L` and element
size `S`, every index `i < L` and every value `v` of exactly `S` bytes,
`array_set i v S` returns Ok and a subsequent `array_get i S` returns Ok
with output bytes equal to `v` (round-trip law). -/
theorem C1_set_get_roundtrip (st0 : Array) (L S i : Nat) (v : List Nat)
    (st1 : Option Array)
    (hinit : array_init (some st0) L S true = some (.S_OK, st1))
    (hi : i < L) (hv : v.length = S) :
    ∃ st2, array_set st1 i v S = some (.S_OK, some st2) ∧
      array_get (some st2) i true S = some (.S_OK, some v) := by
  obtain ⟨st, -, hS, hL, hmax, -, rfl⟩ :=
    array_init_ok_inv (some st0) L S true st1 hinit
  have hmul : i * S + S ≤ L * S := by
    have h1 := Nat.mul_le_mul_right S hi
    rw [Nat.succ_mul] at h1
    exact h1
  have htake : v.take S = v := by
    rw [← hv]
    exact List.take_length v
  have hwlen : (writeBytes (List.replicate (L * S) 0) (i * S) v).length
      = L * S := by
    rw [writeBytes_length]
    · simp
    · simp [hv]
      omega
  refine ⟨⟨some (writeBytes (List.replicate (L * S) 0) (i * S) v), L, S⟩,
    ?_, ?_⟩
  · simp [array_set, not_le.mpr hi, Nat.not_lt.mpr hmul, hv, htake]
  · have hread := readBytes_writeBytes (List.replicate (L * S) 0) v (i * S)
      (by simp; omega)
    rw [hv] at hread
    simp [array_get, not_le.mpr hi, hwlen, Nat.not_lt.mpr hmul, hread]

/-- Witness for C1 at a concrete input: a 5-element array of 4-byte
elements, writing then reading the bytes of 42 at index 2. -/
theorem C1_set_get_roundtrip_witness :
    ∃ st2, array_set (some ⟨some (List.replicate 20 0), 5, 4⟩) 2
        [42, 0, 0, 0] 4 = some (.S_OK, some st2) ∧
      array_get (some st2) 2 true 4 = some (.S_OK, some [42, 0, 0, 0]) :=
  C1_set_get_roundtrip ⟨none, 0, 0⟩ 5 4 2 [42, 0, 0, 0]
    (some ⟨some (List.replicate 20 0), 5, 4⟩) (by decide) (by decide)
    (by decide)

/-- Claim C2: for every `length > 0` and `elem_size > 0` with
`length ≤ SIZE_MAX / elem_size` and allocation succeeding, `array_init` on
a present, unallocated instance returns Ok, and every subsequent
`array_get` of every index in `[0, length)` with matching size returns
all-zero bytes before any write. -/
theorem C2_init_zero_fill (st0 : Array) (L S : Nat)
    (hunalloc : st0.head = none) (hL : 0 < L) (hS : 0 < S)
    (hmax : L ≤ SIZE_MAX / S) :
    ∃ st1, array_init (some st0) L S true = some (.S_OK, some st1) ∧
      ∀ i, i < L → array_get (some st1) i true S
        = some (.S_OK, some (List.replicate S 0)) := by
  refine ⟨⟨some (List.replicate (L * S) 0), L, S⟩, ?_, ?_⟩
  · simp [array_init, hL.ne', hS.ne', not_lt.mpr hmax]
  · intro i hi
    have hmul : i * S + S ≤ L * S := by
      have h1 := Nat.mul_le_mul_right S hi
      rw [Nat.succ_mul] at h1
      exact h1
    simp [array_get, not_le.mpr hi, Nat.not_lt.mpr hmul,
      readBytes_replicate_zero L S i hi]

/-- Witness for C2 at a concrete input: initializing a fresh instance with
10 elements of 4 bytes succeeds and every element reads back as zeros. -/
theorem C2_init_zero_fill_witness :
    ∃ st1, array_init (some ⟨none, 0, 0⟩) 10 4 true = some (.S_OK, some st1) ∧
      ∀ i, i < 10 → array_get (some st1) i true 4
        = some (.S_OK, some (List.replicate 4 0)) :=
  C2_init_zero_fill ⟨none, 0, 0⟩ 10 4 rfl (by decide) (by decide) (by decide)

/-- Counterexample to C3 as stated: on a present, allocated 3-element
instance of 4-byte elements, `array_set` at the out-of-range index 3 with a
2-byte value returns OutOfRange, not SizeMismatch — the size mismatch does
not dominate an invalid index. -/
theorem C3_counterexample :
    (array_set (some ⟨some (List.replicate 12 0), 3, 4⟩) 3 [7, 7] 2).map
        Prod.fst = some .S_ERR_OUT_OF_RANGE ∧
      status_t.S_ERR_OUT_OF_RANGE ≠ status_t.S_ERR_ELEMENT_SIZE_MISMATCH := by
  decide

/-- Claim C3 as amended: on a present, allocated instance, a call to `array_get`
or `array_set` with `value_size ≠ elem_size` and an in-range index returns
SizeMismatch and changes nothing; with an out-of-range index the range
error dominates and OutOfRange is returned instead. -/
theorem C3_size_mismatch (st : Array) (i vs : Nat) (v : List Nat)
    (halloc : st.head.isSome) (hvs : vs ≠ st.elem_size) :
    (i < st.length →
      array_set (some st) i v vs = some (.S_ERR_ELEMENT_SIZE_MISMATCH, some st) ∧
      array_get (some st) i true vs = some (.S_ERR_ELEMENT_SIZE_MISMATCH, none)) ∧
    (i ≥ st.length →
      array_set (some st) i v vs = some (.S_ERR_OUT_OF_RANGE, some st) ∧
      array_get (some st) i true vs = some (.S_ERR_OUT_OF_RANGE, none)) := by
  constructor
  · intro hi
    constructor
    · simp [array_set, not_le.mpr hi, hvs.symm]
    · simp [array_get, not_le.mpr hi, hvs.symm]
  · intro hi
    constructor
    · simp [array_set, hi]
    · simp [array_get, hi]

/-- Witness for the amended C3 at concrete inputs: a 3-element array of
4-byte elements rejects a 2-byte access at index 1 with SizeMismatch, and
at index 3 with OutOfRange. -/
theorem C3_size_mismatch_witness :
    (array_set (some ⟨some (List.replicate 12 0), 3, 4⟩) 1 [7, 7] 2
        = some (.S_ERR_ELEMENT_SIZE_MISMATCH,
          some ⟨some (List.replicate 12 0), 3, 4⟩) ∧
      array_get (some ⟨some (List.replicate 12 0), 3, 4⟩) 1 true 2
        = some (.S_ERR_ELEMENT_SIZE_MISMATCH, none)) ∧
    (array_set (some ⟨some (List.replicate 12 0), 3, 4⟩) 3 [7, 7] 2
        = some (.S_ERR_OUT_OF_RANGE,
          some ⟨some (List.replicate 12 0), 3, 4⟩) ∧
      array_get (some ⟨some (List.replicate 12 0), 3, 4⟩) 3 true 2
        = some (.S_ERR_OUT_OF_RANGE, none)) :=
  ⟨(C3_size_mismatch ⟨some (List.replicate 12 0), 3, 4⟩ 1 2 [7, 7]
      (by decide) (by decide)).1 (by decide),
    (C3_size_mismatch ⟨some (List.replicate 12 0), 3, 4⟩ 3 2 [7, 7]
      (by decide) (by decide)).2 (by decide)⟩

/-- Claim C4: the operations validate their preconditions in the fixed order
absent handle, then absent output destination, then index range, then
element size, returning the error of the first violated check. In
particular a `get` with both an out-of-range index and a missing output
destination reports the missing output, and an in-range access with the
wrong size reports SizeMismatch only after range passed. -/
theorem C4_check_order (st : Array) (i vs : Nat) (v : List Nat) (b : Bool) :
    (array_get none i b vs = some (.S_ERR_SELF_IS_NULL, none)) ∧
    (array_get (some st) i false vs = some (.S_ERR_RETURN_PARAMS_IS_NULL, none)) ∧
    (i ≥ st.length →
      array_get (some st) i true vs = some (.S_ERR_OUT_OF_RANGE, none)) ∧
    (i < st.length → vs ≠ st.elem_size →
      array_get (some st) i true vs = some (.S_ERR_ELEMENT_SIZE_MISMATCH, none)) ∧
    (array_set none i v vs = some (.S_ERR_SELF_IS_NULL, none)) ∧
    (i ≥ st.length →
      array_set (some st) i v vs = some (.S_ERR_OUT_OF_RANGE, some st)) ∧
    (i < st.length → vs ≠ st.elem_size →
      array_set (some st) i v vs = some (.S_ERR_ELEMENT_SIZE_MISMATCH, some st)) := by
  refine ⟨rfl, rfl, ?_, ?_, rfl, ?_, ?_⟩
  · intro hi
    simp [array_get, hi]
  · intro hi hvs
    simp [array_get, not_le.mpr hi, hvs.symm]
  · intro hi
    simp [array_set, hi]
  · intro hi hvs
    simp [array_set, not_le.mpr hi, hvs.symm]

/-- Witness for C4 at concrete inputs, realizing the spec's scenario D on a
3-element array of 4-byte elements: `set` at index 3 yields OutOfRange,
`get` at index 3 with a null destination yields the missing-output error
even though the index is also out of range. -/
theorem C4_check_order_witness :
    array_set (some ⟨some (List.replicate 12 0), 3, 4⟩) 3 [1, 2, 3, 4] 4
        = some (.S_ERR_OUT_OF_RANGE, some ⟨some (List.replicate 12 0), 3, 4⟩) ∧
      array_get (some ⟨some (List.replicate 12 0), 3, 4⟩) 3 false 4
        = some (.S_ERR_RETURN_PARAMS_IS_NULL, none) :=
  ⟨(C4_check_order ⟨some (List.replicate 12 0), 3, 4⟩ 3 4 [1, 2, 3, 4]
      true).2.2.2.2.2.1 (by decide),
    (C4_check_order ⟨some (List.replicate 12 0), 3, 4⟩ 3 4 [1, 2, 3, 4]
      false).2.1⟩

/-- Claim C5: on a present instance with `elem_size > 0`, `array_init` returns
OutOfRange exactly when `length = 0` or `length > SIZE_MAX / elem_size`,
and on every successful initialization the total storage size
`length * elem_size` does not exceed SIZE_MAX. -/
theorem C5_overflow_guard (st : Array) (L S : Nat) (allocOk : Bool)
    (hS : 0 < S) :
    ((∃ st', array_init (some st) L S allocOk
        = some (.S_ERR_OUT_OF_RANGE, st')) ↔ (L = 0 ∨ L > SIZE_MAX / S)) ∧
    (∀ st', array_init (some st) L S allocOk = some (.S_OK, st') →
      L * S ≤ SIZE_MAX) := by
  constructor
  · constructor
    · rintro ⟨st', h⟩
      by_contra hcond
      simp only [array_init, hS.ne', if_false] at h
      rw [if_neg hcond] at h
      split at h <;> simp at h
    · intro hcond
      refine ⟨some st, ?_⟩
      simp [array_init, hS.ne', hcond]
  · intro st' h
    obtain ⟨-, -, -, -, hmax, -, -⟩ :=
      array_init_ok_inv (some st) L S allocOk st' h
    exact (Nat.le_div_iff_mul_le hS).mp hmax

/-- Witness for C5 at a concrete input: with 4-byte elements on a fresh
instance, the characterization of OutOfRange and the no-overflow bound
hold for a request of 5 elements. -/
theorem C5_overflow_guard_witness :
    ((∃ st', array_init (some ⟨none, 0, 0⟩) 5 4 true
        = some (.S_ERR_OUT_OF_RANGE, st')) ↔ (5 = 0 ∨ 5 > SIZE_MAX / 4)) ∧
    (∀ st', array_init (some ⟨none, 0, 0⟩) 5 4 true = some (.S_OK, st') →
      5 * 4 ≤ SIZE_MAX) :=
  C5_overflow_guard ⟨none, 0, 0⟩ 5 4 true (by decide)

/-- Claim C6: no operation mutates the instance or its storage when it
returns an error.  For every out-of-range index, `array_set` and
`array_get` return OutOfRange with the instance unchanged and the output
buffer unwritten; and whenever `array_set` returns any non-Ok status, the
instance it hands back is exactly the one it was given, so no element
write (full or otherwise) occurred.  (`array_get` takes a `const` receiver
and is embedded as returning no state at all, so it cannot mutate by
construction.) -/
theorem C6_no_mutation_on_error (st : Array) (i vs : Nat) (v : List Nat) :
    (i ≥ st.length →
      array_set (some st) i v vs = some (.S_ERR_OUT_OF_RANGE, some st) ∧
      array_get (some st) i true vs = some (.S_ERR_OUT_OF_RANGE, none)) ∧
    (∀ r st', array_set (some st) i v vs = some (r, st') →
      r ≠ status_t.S_OK → st' = some st) := by
  constructor
  · intro hi
    exact ⟨by simp [array_set, hi], by simp [array_get, hi]⟩
  · intro r st' h hr
    simp only [array_set] at h
    split at h
    next =>
      simp only [Option.some.injEq, Prod.mk.injEq] at h
      exact h.2.symm
    next =>
      split at h
      next =>
        simp only [Option.some.injEq, Prod.mk.injEq] at h
        exact h.2.symm
      next =>
        split at h
        next => simp at h
        next =>
          split at h
          next => simp at h
          next =>
            simp only [Option.some.injEq, Prod.mk.injEq] at h
            exact absurd h.1.symm hr

/-- Witness for C6 at a concrete input: on a 3-element array of 4-byte
elements, accessing index 3 fails with OutOfRange and changes nothing. -/
theorem C6_no_mutation_on_error_witness :
    array_set (some ⟨some (List.replicate 12 0), 3, 4⟩) 3 [1, 2, 3, 4] 4
        = some (.S_ERR_OUT_OF_RANGE,
          some ⟨some (List.replicate 12 0), 3, 4⟩) ∧
      array_get (some ⟨some (List.replicate 12 0), 3, 4⟩) 3 true 4
        = some (.S_ERR_OUT_OF_RANGE, none) :=
  (C6_no_mutation_on_error ⟨some (List.replicate 12 0), 3, 4⟩ 3 4
    [1, 2, 3, 4]).1 (by decide)

/-- Claim C7: release is idempotent.  For every present instance, allocated
or not, `array_free` returns Ok and resets the instance to the empty state
(no storage handle, length 0, elem_size 0), and a second `array_free` on
that result again returns Ok and leaves length 0. -/
theorem C7_free_idempotent (st : Array) :
    array_free (some st) = (.S_OK, some ⟨none, 0, 0⟩) ∧
    array_free (some ⟨none, 0, 0⟩) = (.S_OK, some ⟨none, 0, 0⟩) ∧
    (⟨none, 0, 0⟩ : Array).length = 0 :=
  ⟨rfl, rfl, rfl⟩

/-- Claim C8: for every present instance and present output destination,
`array_len` returns Ok with the current element count; after a successful
`array_init n s` it reports exactly `n`, and after `array_free` it reports
0.  (`array_len` takes a `const` receiver and is embedded as returning no
state, so it is a pure read by construction.) -/
theorem C8_len_reads_count (st st0 : Array) (n s : Nat) (allocOk : Bool)
    (st1 : Option Array)
    (hinit : array_init (some st0) n s allocOk = some (.S_OK, st1)) :
    array_len (some st) true = (.S_OK, some st.length) ∧
    ∃ st1', st1 = some st1' ∧
      array_len (some st1') true = (.S_OK, some n) ∧
      ∃ st2, array_free (some st1') = (.S_OK, some st2) ∧
        array_len (some st2) true = (.S_OK, some 0) := by
  obtain ⟨-, -, -, -, -, -, rfl⟩ :=
    array_init_ok_inv (some st0) n s allocOk st1 hinit
  exact ⟨rfl, _, rfl, rfl, ⟨none, 0, 0⟩, rfl, rfl⟩

/-- Witness for C8 at a concrete input: after initializing 7 elements of 4
bytes, `array_len` reports 7, and after `array_free` it reports 0. -/
theorem C8_len_reads_count_witness :
    array_len (some ⟨some (List.replicate 28 0), 7, 4⟩) true
        = (.S_OK, some 7) ∧
    ∃ st1', some ⟨some (List.replicate 28 0), 7, 4⟩ = some st1' ∧
      array_len (some st1') true = (.S_OK, some 7) ∧
      ∃ st2, array_free (some st1') = (.S_OK, some st2) ∧
        array_len (some st2) true = (.S_OK, some 0) :=
  C8_len_reads_count ⟨some (List.replicate 28 0), 7, 4⟩ ⟨none, 0, 0⟩ 7 4 true
    (some ⟨some (List.replicate 28 0), 7, 4⟩) (by decide)

/-- Claim C9: `array_init` computes `SIZE_MAX / elem_size` before any
validation of `elem_size`, so on a present instance a call with
`elem_size = 0` divides by zero (undefined behaviour, no status returned),
while every call with `elem_size > 0` returns a defined status. -/
theorem C9_div_by_zero (st : Array) (L S : Nat) (allocOk : Bool) :
    array_init (some st) L 0 allocOk = none ∧
    (0 < S → (array_init (some st) L S allocOk).isSome = true) := by
  refine ⟨rfl, ?_⟩
  intro hS
  simp only [array_init]
  rw [if_neg hS.ne']
  split
  · rfl
  · split
    · rfl
    · rfl

/-- Witness for C9 at a concrete input: requesting 3 elements of size 0 has
no defined result, while size 4 yields a status. -/
theorem C9_div_by_zero_witness :
    array_init (some ⟨none, 0, 0⟩) 3 0 true = none ∧
    (array_init (some ⟨none, 0, 0⟩) 3 4 true).isSome = true :=
  ⟨(C9_div_by_zero ⟨none, 0, 0⟩ 3 4 true).1,
    (C9_div_by_zero ⟨none, 0, 0⟩ 3 4 true).2 (by decide)⟩

/-- Claim C10: `array_init` on an already-allocated instance never inspects
or releases the prior storage handle: on success it unconditionally
replaces the handle with the fresh zero-filled allocation, and on
allocation failure it returns OutOfMemory having already overwritten the
handle with NULL — so the instance is mutated on error whenever it was
previously allocated, and any preserved-on-failure guarantee holds only
from the unallocated state. -/
theorem C10_init_overwrites_allocated (bytes : List Nat) (len es L S : Nat)
    (hS : 0 < S) (hL : 0 < L) (hmax : L ≤ SIZE_MAX / S) :
    array_init (some ⟨some bytes, len, es⟩) L S true
      = some (.S_OK, some ⟨some (List.replicate (L * S) 0), L, S⟩) ∧
    array_init (some ⟨some bytes, len, es⟩) L S false
      = some (.S_ERR_OUT_OF_MEMORY, some ⟨none, len, es⟩) ∧
    (⟨none, len, es⟩ : Array) ≠ ⟨some bytes, len, es⟩ := by
  refine ⟨?_, ?_, ?_⟩
  · simp [array_init, hL.ne', hS.ne', not_lt.mpr hmax]
  · simp [array_init, hL.ne', hS.ne', not_lt.mpr hmax]
  · simp

/-- Witness for C10 at a concrete input: re-initializing an allocated
1-element instance with 2 elements of 4 bytes succeeds by replacing the
handle, and the failing-allocation variant leaves the instance with a NULL
handle, a mutation of its prior allocated state. -/
theorem C10_init_overwrites_allocated_witness :
    array_init (some ⟨some [1, 2, 3, 4], 1, 4⟩) 2 4 true
        = some (.S_OK, some ⟨some (List.replicate 8 0), 2, 4⟩) ∧
      array_init (some ⟨some [1, 2, 3, 4], 1, 4⟩) 2 4 false
        = some (.S_ERR_OUT_OF_MEMORY, some ⟨none, 1, 4⟩) ∧
      (⟨none, 1, 4⟩ : Array) ≠ ⟨some [1, 2, 3, 4], 1, 4⟩ :=
  C10_init_overwrites_allocated [1, 2, 3, 4] 1 4 2 4 (by decide) (by decide)
    (by decide)

end DSA
